import Mathlib

/-!
# Shallow embedding of the flare-go/shop transactional inventory/order core

This file models, in Lean, the data model and the operations of the shop
repository that the verified claims are about:

* the stock ledger's SQL mutations (`AdjustStock`, `ReleaseStock`, `ReduceStock`,
  `CreateStockMovement` from `sqlc/query/stock.sql`) and the Go repository layer
  over them (`stock/repository.go`),
* the transaction wrapper (`driver/tx.go`, `ExecuteTransactionWithOptions`),
* the order state machine (`models/order.go`),
* the service workflows (`AddItemsToCart`, `RemoveItemFromCart`,
  `ConvertCartToOrder`, `CreateOrder`, `UpdateOrderStatus`) and the event
  pipeline's `ProcessEvent`.

Modelling conventions:

* timestamps are `Nat` (`NOW()` becomes an explicit `now` argument),
* SQL integer columns are `Int` (the schema declares `quantity` and
  `reserved_quantity` as signed `INTEGER` with no CHECK constraint); Go `uint64`
  quantities of request items are `Nat`,
* monetary `float64` fields are `ℚ` (exact arithmetic; float rounding is out of
  scope, no claim depends on it),
* fallible Go functions return `Option String` errors (`none` = nil error),
* the cache layer is advisory (spec §1 excludes it): repository reads of carts,
  cart items and orders are modelled at their cache-miss path, which always
  consults the store.  The stock cache is the one cache a claim is about, so
  `GetStock` models it explicitly, and the workflow state threads it.  The
  post-mutation cache refreshes (`updateStockCache`, performed outside the
  transaction) only write to the cache; in every workflow modelled here all
  stock reads happen before the first stock mutation of the same call, so the
  refresh cannot influence any modelled read and is not reproduced.
-/

namespace Shop

abbrev Time := Nat

abbrev Money := ℚ

/-! ## Enumerations (models/enum) -/

/-- models/enum OrderStatus. -/
inductive OrderStatus
  | pending
  | processing
  | completed
  | cancelled
  | refunded
  | partiallyRefunded
  | paid
  | failed
  | awaitingStock
  | dispute
deriving DecidableEq, Repr, Fintype

/-- models/enum CartStatus. -/
inductive CartStatus
  | active
  | abandoned
  | converted
deriving DecidableEq, Repr

/-- models/enum StockMovementType (a Go string type). -/
inductive StockMovementType
  | stockIn
  | stockOut
  | reserve
  | release
deriving DecidableEq, Repr

/-- The underlying string of each StockMovementType constant
(`"in"`, `"out"`, `"reserve"`, `"release"`). -/
def StockMovementType.val : StockMovementType → String
  | .stockIn => "in"
  | .stockOut => "out"
  | .reserve => "reserve"
  | .release => "release"

/-- models/enum StockMovementReferenceType (a Go string type). -/
inductive StockMovementReferenceType
  | cart
  | order
  | returnRef
  | adjustment
deriving DecidableEq, Repr

/-- The underlying string of each StockMovementReferenceType constant. -/
def StockMovementReferenceType.val : StockMovementReferenceType → String
  | .cart => "cart"
  | .order => "order"
  | .returnRef => "return"
  | .adjustment => "adjustment"

/-- The values of the `stock_movement_type` Postgres enum
(migrations/202409100003_init_shop_schema.up.sql). -/
def validStockMovementTypes : List String := ["in", "out", "reserve", "release"]

/-! ## Rows (models/ and the migration schema) -/

/-- A row of the `stocks` table / models.Stock.  `quantity` and
`reserved_quantity` are signed INTEGER columns. -/
structure Stock where
  id : Nat
  productId : String
  quantity : Int
  reservedQuantity : Int
  location : String
  createdAt : Time
  updatedAt : Time
deriving DecidableEq, Repr

/-- A row of the `stock_movements` table.  The `type` and `reference_type`
columns are stored as the strings the repository writes into them. -/
structure StockMovement where
  stockId : Nat
  quantity : Int
  type : String
  referenceId : Nat
  referenceType : String
  createdAt : Time
deriving DecidableEq, Repr

/-- A row of the `carts` table / models.Cart. -/
structure Cart where
  id : Nat
  customerId : String
  status : CartStatus
  currency : String
  subtotal : Money
  tax : Money
  discount : Money
  total : Money
  createdAt : Time
  updatedAt : Time
  expiresAt : Time
deriving DecidableEq, Repr

/-- A row of the `cart_items` table / models.CartItem. -/
structure CartItem where
  id : Nat
  cartId : Nat
  productId : String
  priceId : String
  stockId : Nat
  quantity : Nat
  unitPrice : Money
  subtotal : Money
deriving DecidableEq, Repr

/-- A row of the `order_items` table / models.OrderItem. -/
structure OrderItem where
  id : Nat
  orderId : Nat
  productId : String
  priceId : String
  stockId : Nat
  quantity : Nat
  unitPrice : Money
  subtotal : Money
deriving DecidableEq, Repr

/-- models.Order.  `items` is the in-memory field of the Go struct; the
`orders` table itself has no items column, so rows stored in the database
keep `items = []`. -/
structure Order where
  id : Nat
  customerId : String
  cartId : Option Nat
  status : OrderStatus
  currency : String
  subtotal : Money
  tax : Money
  discount : Money
  total : Money
  paymentIntentId : String
  items : List OrderItem
  createdAt : Time
  updatedAt : Time
deriving DecidableEq, Repr

/-! ## Order state machine (models/order.go) -/

/-- models/order.go `AllowedTransitions`: a Go map from status to its allowed
targets; statuses missing from the map (processing, awaiting_stock) have no
entry. -/
def AllowedTransitions : OrderStatus → Option (List OrderStatus)
  | .pending => some [.paid, .cancelled, .failed]
  | .paid => some [.completed, .refunded, .partiallyRefunded, .dispute]
  | .failed => some [.pending]
  | .cancelled => some []
  | .refunded => some []
  | .partiallyRefunded => some [.refunded]
  | .dispute => some [.paid, .refunded]
  | .completed => some []
  | .processing => none
  | .awaitingStock => none

/-- models/order.go `Order.AllowChangeStatus`. -/
def Order.AllowChangeStatus (o : Order) (newStatus : OrderStatus) : Bool :=
  match AllowedTransitions o.status with
  | none => false
  | some allowed => allowed.contains newStatus

/-- models/order.go `OrderItem.Validate` (first failing check's message). -/
def OrderItem.Validate (oi : OrderItem) : Option String :=
  if oi.productId = "" then some "product ID is required"
  else if oi.quantity = 0 then some "quantity must be greater than zero"
  else if ¬ 0 < oi.unitPrice then some "unit price must be greater than zero"
  else if oi.subtotal ≠ (oi.quantity : Money) * oi.unitPrice then
    some "subtotal does not match quantity and unit price"
  else none

/-- models/order.go `Order.Validate`. -/
def Order.Validate (o : Order) : Option String :=
  if o.customerId = "" then some "customer ID is required"
  else if o.currency = "" then some "currency is required"
  else if o.items = [] then some "order must have at least one item"
  else if ¬ 0 < o.total then some "total must be greater than zero"
  else if ¬ 0 < o.subtotal then some "subtotal must be greater than zero"
  else if o.tax < 0 then some "tax cannot be negative"
  else if o.discount < 0 then some "discount cannot be negative"
  else if o.total ≠ o.subtotal + o.tax - o.discount then
    some "total does not match subtotal, tax, and discount"
  else
    match o.items.findSome? OrderItem.Validate with
    | some msg => some ("invalid order item: " ++ msg)
    | none => none

/-! ## Stock ledger parameters (stock/request.go) -/

structure AdjustStockParams where
  stockID : Nat
  quantity : Int
  lastUpdated : Time
deriving DecidableEq, Repr

structure ReleaseStockParams where
  stockID : Nat
  quantity : Int
  lastUpdated : Time
deriving DecidableEq, Repr

structure ReduceStockParams where
  stockID : Nat
  quantity : Int
  lastUpdated : Time
deriving DecidableEq, Repr

structure CreateStockMovementParams where
  stockID : Nat
  quantity : Int
  type : StockMovementType
  referenceID : Nat
  referenceType : StockMovementReferenceType
deriving DecidableEq, Repr

/-! ## Stock SQL statements (sqlc/query/stock.sql) and the repository batches
(stock/repository.go).

Each batched statement runs in order.  A statement that matches zero rows
(stale `updated_at` token) is not a driver error, so the repository's
`batchError` is never set by it; in this model an UPDATE or INSERT statement
cannot fail, hence the batch functions always return a nil error — exactly the
silent-skip behaviour of the source. -/

/-- One `AdjustStock` UPDATE applied to one row:
`SET reserved_quantity = reserved_quantity + q, updated_at = NOW()
 WHERE id = sid AND updated_at = tok`. -/
def adjustStockRow (now : Time) (p : AdjustStockParams) (s : Stock) : Stock :=
  if s.id = p.stockID ∧ s.updatedAt = p.lastUpdated then
    { s with reservedQuantity := s.reservedQuantity + p.quantity, updatedAt := now }
  else s

/-- One `ReleaseStock` UPDATE applied to one row:
`SET reserved_quantity = reserved_quantity - q, updated_at = NOW()`. -/
def releaseStockRow (now : Time) (p : ReleaseStockParams) (s : Stock) : Stock :=
  if s.id = p.stockID ∧ s.updatedAt = p.lastUpdated then
    { s with reservedQuantity := s.reservedQuantity - p.quantity, updatedAt := now }
  else s

/-- One `ReduceStock` UPDATE applied to one row:
`SET quantity = quantity - q, reserved_quantity = reserved_quantity - q,
 updated_at = NOW()`. -/
def reduceStockRow (now : Time) (p : ReduceStockParams) (s : Stock) : Stock :=
  if s.id = p.stockID ∧ s.updatedAt = p.lastUpdated then
    { s with quantity := s.quantity - p.quantity,
             reservedQuantity := s.reservedQuantity - p.quantity, updatedAt := now }
  else s

/-- stock/repository.go `AdjustStock`: the batch of AdjustStock statements. -/
def adjustStock (now : Time) (params : List AdjustStockParams) (stocks : List Stock) :
    List Stock × Option String :=
  (params.foldl (fun st p => st.map (adjustStockRow now p)) stocks, none)

/-- stock/repository.go `ReleaseStock`: the batch of ReleaseStock statements. -/
def releaseStock (now : Time) (params : List ReleaseStockParams) (stocks : List Stock) :
    List Stock × Option String :=
  (params.foldl (fun st p => st.map (releaseStockRow now p)) stocks, none)

/-- stock/repository.go `ReduceStock`: the batch of ReduceStock statements. -/
def reduceStock (now : Time) (params : List ReduceStockParams) (stocks : List Stock) :
    List Stock × Option String :=
  (params.foldl (fun st p => st.map (reduceStockRow now p)) stocks, none)

/-- stock/repository.go `CreateStockMovements`: appends one `stock_movements`
row per parameter.  The source fills the sqlc `Type` field with
`sqlc.StockMovementType(param.ReferenceType)` — the reference type, not
`param.Type`; this model reproduces that assignment verbatim. -/
def createStockMovements (now : Time) (params : List CreateStockMovementParams)
    (movements : List StockMovement) : List StockMovement × Option String :=
  (movements ++ params.map (fun p =>
    { stockId := p.stockID
      quantity := p.quantity
      type := p.referenceType.val
      referenceId := p.referenceID
      referenceType := p.referenceType.val
      createdAt := now }), none)

/-- stock/repository.go `GetStock`: cache-aside read.  When the cache holds an
entry for `stockID` that entry is returned as-is; only on a miss is the
`stocks` table consulted, and the row read is then stored in the cache. -/
def getStock (cache : List (Nat × Stock)) (stocks : List Stock) (stockID : Nat) :
    Option Stock × List (Nat × Stock) :=
  match cache.lookup stockID with
  | some s => (some s, cache)
  | none =>
    match stocks.find? (fun s => s.id == stockID) with
    | none => (none, cache)
    | some s => (some s, (stockID, s) :: cache)

/-! ## Transaction manager (driver/tx.go) -/

/-- The outcome of one `ExecuteTransactionWithOptions` call: the database
state after the call, the error returned to the caller, and whether the
transaction was committed. -/
structure TxResult (σ : Type) where
  db : σ
  error : Option String
  committed : Bool
deriving Repr

/-- driver/tx.go `TransactionManager.ExecuteTransactionWithOptions`.

The source begins with `dbTx, err := m.conn.BeginTx(ctx, opts)`; BeginTx is
modelled as always succeeding, so the local variable `err` holds nil from then
on.  The body then runs `return fn(dbTx)`, whose result is an anonymous return
value: it is never assigned to `err`.  The deferred closure therefore observes
`err == nil` on every non-panicking exit and takes the `dbTx.Commit` branch —
even when `fn` returned an error — while the `else if err != nil` rollback
branch cannot run.  (A Commit error is only logged, never returned.)

`fn` is a state transformer returning the transaction's state at its exit
point; on an error return that state includes every statement the transaction
already executed, and committing persists it.  Panics are outside this model
(no modelled workflow panics). -/
def ExecuteTransactionWithOptions {σ : Type} (fn : σ → σ × Option String) (db : σ) :
    TxResult σ :=
  let beginTxErr : Option String := none
  let fnResult := fn db
  match beginTxErr with
  | some e => { db := db, error := some ("begin transaction failed: " ++ e), committed := false }
  | none => { db := fnResult.1, error := fnResult.2, committed := true }

/-- driver/tx.go `ExecuteTransaction`: `ExecuteTransactionWithOptions` at
repeatable-read isolation (isolation level has no observable effect in this
single-transaction model). -/
def ExecuteTransaction {σ : Type} (fn : σ → σ × Option String) (db : σ) : TxResult σ :=
  ExecuteTransactionWithOptions fn db

/-! ## The relational state the workflows act on -/

/-- The tables of the shop schema that the modelled workflows touch, plus the
stock cache and the next SERIAL id the store will assign. -/
structure DB where
  stocks : List Stock
  stockMovements : List StockMovement
  carts : List Cart
  cartItems : List CartItem
  orders : List Order
  orderItems : List OrderItem
  stockCache : List (Nat × Stock)
  nextId : Nat
deriving DecidableEq, Repr

/-- `GetStock` threaded through the workflow state: reads via the stock cache
and records a cache fill on a miss. -/
def DB.getStockS (db : DB) (stockID : Nat) : Option Stock × DB :=
  match getStock db.stockCache db.stocks stockID with
  | (r, cache) => (r, { db with stockCache := cache })

/-- order repository `AddOrderItems`: batch INSERT into `order_items`
(field list from order repository AddOrderItemsParams and the order_items
schema); each row receives the next SERIAL id.  Batch INSERTs cannot fail in
this model, so the error is nil. -/
def addOrderItems (items : List OrderItem) (db : DB) : DB × Option String :=
  (items.foldl (fun d oi =>
    { d with orderItems := d.orderItems ++ [{ oi with id := d.nextId }],
             nextId := d.nextId + 1 }) db, none)

/-- Modelled from the spec: the sqlc `UpdateOrderTotals` query is not among
the source files (only its caller `service.CreateOrder` is).  Spec §4.4 says
`CreateOrder` ends with "a totals recomputation": the order's subtotal is
recomputed from its stored items and `total = subtotal + tax - discount`. -/
def updateOrderTotals (now : Time) (orderID : Nat) (db : DB) : DB × Option String :=
  let items := db.orderItems.filter (fun oi => oi.orderId == orderID)
  ({ db with orders := db.orders.map (fun o =>
      if o.id == orderID then
        let subtotal := (items.map OrderItem.subtotal).sum
        { o with subtotal := subtotal, total := subtotal + o.tax - o.discount,
                 updatedAt := now }
      else o) }, none)

/-! ## Cart workflows (service, sqlc/query/order.sql file, package shop) -/

/-- service `GetOrCreateActiveCart`: return the customer's active cart, or
create a fresh active cart (carts SERIAL id, 7-day expiry).  Cart creation
cannot fail in this model, so the fallible Go signature is reduced to the
returned cart id and the updated state. -/
def getOrCreateActiveCart (now : Time) (customerID : String) (currency : String)
    (db : DB) : Nat × DB :=
  match db.carts.find? (fun c => c.customerId == customerID && c.status == CartStatus.active) with
  | some c => (c.id, db)
  | none =>
    let newCart : Cart :=
      { id := db.nextId, customerId := customerID, status := .active, currency := currency,
        subtotal := 0, tax := 0, discount := 0, total := 0,
        createdAt := now, updatedAt := now, expiresAt := now + 7 }
    (newCart.id, { db with carts := db.carts ++ [newCart], nextId := db.nextId + 1 })

/-- The per-item loop of service `AddItemsToCart` (steps 3 and 4 of the
source): check available stock, merge into an existing line or insert a new
cart item, and accumulate the `AdjustStock` / `CreateStockMovements`
parameters.  Returns the state at the loop's exit point together with the
accumulated parameters and the first error. -/
def addItemsLoop (now : Time) (cartID : Nat) (items : List CartItem) (db : DB)
    (adjustAcc : List AdjustStockParams) (moveAcc : List CreateStockMovementParams) :
    DB × List AdjustStockParams × List CreateStockMovementParams × Option String :=
  match items with
  | [] => (db, adjustAcc, moveAcc, none)
  | item :: rest =>
    match db.getStockS item.stockId with
    | (none, db1) =>
      (db1, adjustAcc, moveAcc, some ("failed to get stock for item " ++ item.productId))
    | (some stockModel, db1) =>
      if stockModel.quantity - stockModel.reservedQuantity < (item.quantity : Int) then
        (db1, adjustAcc, moveAcc, some ("insufficient stock for item " ++ item.productId))
      else
        let db2 :=
          match db1.cartItems.find? (fun ci =>
              ci.cartId == cartID && ci.productId == item.productId) with
          | some existingItem =>
            let updated := { existingItem with
              quantity := existingItem.quantity + item.quantity,
              subtotal := ((existingItem.quantity + item.quantity : Nat) : Money) *
                existingItem.unitPrice }
            { db1 with cartItems := db1.cartItems.map (fun ci =>
                if ci.id == existingItem.id then updated else ci) }
          | none =>
            { db1 with
              cartItems := db1.cartItems ++ [{ item with id := db1.nextId, cartId := cartID }],
              nextId := db1.nextId + 1 }
        addItemsLoop now cartID rest db2
          (adjustAcc ++ [{ stockID := item.stockId, quantity := (item.quantity : Int),
                           lastUpdated := stockModel.updatedAt }])
          (moveAcc ++ [{ stockID := item.stockId, quantity := (item.quantity : Int),
                         type := .reserve, referenceID := cartID, referenceType := .cart }])

/-- The transaction body of service `AddItemsToCart`. -/
def addItemsToCartBody (now : Time) (customerID : String) (cartID : Nat)
    (items : List CartItem) (currency : String) (db : DB) : DB × Option String :=
  match db.carts.find? (fun c => c.id == cartID) with
  | none => (db, some "failed to get cart")
  | some cartModel =>
    let (cartID1, db1) :=
      if cartModel.status ≠ CartStatus.active then
        getOrCreateActiveCart now customerID currency db
      else (cartID, db)
    match addItemsLoop now cartID1 items db1 [] [] with
    | (db2, _, _, some e) => (db2, some e)
    | (db2, adjustParams, moveParams, none) =>
      match adjustStock now adjustParams db2.stocks with
      | (_, some e) => (db2, some ("failed to adjust stock: " ++ e))
      | (stocks1, none) =>
        let db3 := { db2 with stocks := stocks1 }
        match createStockMovements now moveParams db3.stockMovements with
        | (_, some e) => (db3, some ("failed to create stock movements: " ++ e))
        | (movs, none) => ({ db3 with stockMovements := movs }, none)

/-- service `AddItemsToCart`: the body wrapped in `ExecuteTransaction`. -/
def AddItemsToCart (now : Time) (customerID : String) (cartID : Nat)
    (items : List CartItem) (currency : String) (db : DB) : TxResult DB :=
  ExecuteTransaction (addItemsToCartBody now customerID cartID items currency) db

/-- The transaction body of service `RemoveItemFromCart`: look up the item,
check available stock, delete the row, then `AdjustStock` with the item's
(positive) quantity and a movement with `Type = reserve`, `ReferenceType =
cart` — exactly the parameters the source builds. -/
def removeItemFromCartBody (now : Time) (cartID itemID : Nat) (db : DB) :
    DB × Option String :=
  match db.cartItems.find? (fun ci => ci.id == itemID) with
  | none => (db, some "cart item not found")
  | some item =>
    match db.getStockS item.stockId with
    | (none, db1) => (db1, some "failed to get stock")
    | (some stockModel, db1) =>
      if stockModel.quantity - stockModel.reservedQuantity < (item.quantity : Int) then
        (db1, some "insufficient stock")
      else
        let db2 := { db1 with cartItems := db1.cartItems.filter (fun ci => ci.id != itemID) }
        match adjustStock now
            [{ stockID := item.stockId, quantity := (item.quantity : Int),
               lastUpdated := stockModel.updatedAt }] db2.stocks with
        | (_, some e) => (db2, some ("failed to adjust stock: " ++ e))
        | (stocks1, none) =>
          let db3 := { db2 with stocks := stocks1 }
          match createStockMovements now
              [{ stockID := item.stockId, quantity := (item.quantity : Int),
                 type := .reserve, referenceID := cartID, referenceType := .cart }]
              db3.stockMovements with
          | (_, some e) => (db3, some ("failed to create stock movement: " ++ e))
          | (movs, none) => ({ db3 with stockMovements := movs }, none)

/-- service `RemoveItemFromCart`. -/
def RemoveItemFromCart (now : Time) (cartID itemID : Nat) (db : DB) : TxResult DB :=
  ExecuteTransaction (removeItemFromCartBody now cartID itemID) db

/-! ## Order workflows (service, sqlc/query/order.sql file, package shop) -/

/-- Step 4 of service `ConvertCartToOrder`: snapshot each cart item into an
order item and accumulate the `ReduceStock` / movement (`Type = out`,
`ReferenceType = order`) parameters, reading each item's stock first. -/
def convertLoop (now : Time) (orderId : Nat) (items : List CartItem) (db : DB)
    (oiAcc : List OrderItem) (reduceAcc : List ReduceStockParams)
    (moveAcc : List CreateStockMovementParams) :
    DB × List OrderItem × List ReduceStockParams × List CreateStockMovementParams ×
      Option String :=
  match items with
  | [] => (db, oiAcc, reduceAcc, moveAcc, none)
  | item :: rest =>
    let oi : OrderItem :=
      { id := 0, orderId := orderId, productId := item.productId, priceId := item.priceId,
        stockId := item.stockId, quantity := item.quantity, unitPrice := item.unitPrice,
        subtotal := item.subtotal }
    match db.getStockS item.stockId with
    | (none, db1) =>
      (db1, oiAcc, reduceAcc, moveAcc,
        some ("failed to get stock for item " ++ item.productId))
    | (some stockModel, db1) =>
      convertLoop now orderId rest db1 (oiAcc ++ [oi])
        (reduceAcc ++ [{ stockID := item.stockId, quantity := (item.quantity : Int),
                         lastUpdated := stockModel.updatedAt }])
        (moveAcc ++ [{ stockID := item.stockId, quantity := (item.quantity : Int),
                       type := .stockOut, referenceID := orderId, referenceType := .order }])

/-- The transaction body of service `ConvertCartToOrder`.  Returns the new
order (as the service's captured `newOrder` variable) alongside the state. -/
def convertCartToOrderBody (now : Time) (cartID : Nat) (db : DB) :
    DB × Option Order × Option String :=
  match db.carts.find? (fun c => c.id == cartID) with
  | none => (db, none, some "failed to get cart")
  | some cartModel =>
    if cartModel.status ≠ CartStatus.active then (db, none, some "cart is not active")
    else
      let cartItems := db.cartItems.filter (fun ci => ci.cartId == cartID)
      if cartItems = [] then (db, none, some "cart is empty")
      else
        let newOrder : Order :=
          { id := db.nextId, customerId := cartModel.customerId, cartId := some cartID,
            status := .pending, currency := cartModel.currency,
            subtotal := cartModel.subtotal, tax := cartModel.tax,
            discount := cartModel.discount, total := cartModel.total,
            paymentIntentId := "", items := [], createdAt := now, updatedAt := now }
        let db1 := { db with orders := db.orders ++ [newOrder], nextId := db.nextId + 1 }
        match convertLoop now newOrder.id cartItems db1 [] [] [] with
        | (db2, _, _, _, some e) => (db2, none, some e)
        | (db2, orderItems, reduceParams, moveParams, none) =>
          match addOrderItems orderItems db2 with
          | (db3, some e) => (db3, none, some ("failed to add order items: " ++ e))
          | (db3, none) =>
            match reduceStock now reduceParams db3.stocks with
            | (_, some e) => (db3, none, some ("failed to reduce stock: " ++ e))
            | (stocks1, none) =>
              let db4 := { db3 with stocks := stocks1 }
              match createStockMovements now moveParams db4.stockMovements with
              | (_, some e) => (db4, none, some ("failed to create stock movements: " ++ e))
              | (movs, none) =>
                let db5 := { db4 with stockMovements := movs }
                let db6 := { db5 with carts := db5.carts.map (fun c =>
                  if c.id == cartID then { c with status := .converted, updatedAt := now }
                  else c) }
                (db6, some newOrder, none)

/-- service `ConvertCartToOrder`: the body wrapped in `ExecuteTransaction`;
the state carries the captured `newOrder` alongside the database. -/
def ConvertCartToOrder (now : Time) (cartID : Nat) (db : DB) :
    TxResult (DB × Option Order) :=
  ExecuteTransaction (fun s =>
    match convertCartToOrderBody now cartID s.1 with
    | (db1, ord, err) => ((db1, ord), err)) (db, none)

/-- Step 3 of service `CreateOrder` (manual creation): snapshot the order's
items, read each item's stock and check `stockModel.Quantity < item.Quantity`
— on-hand quantity only, the reserved quantity is not consulted — then
accumulate the `ReduceStock` / movement parameters. -/
def createOrderLoop (now : Time) (orderId : Nat) (items : List OrderItem) (db : DB)
    (oiAcc : List OrderItem) (reduceAcc : List ReduceStockParams)
    (moveAcc : List CreateStockMovementParams) :
    DB × List OrderItem × List ReduceStockParams × List CreateStockMovementParams ×
      Option String :=
  match items with
  | [] => (db, oiAcc, reduceAcc, moveAcc, none)
  | item :: rest =>
    let oi : OrderItem :=
      { id := 0, orderId := orderId, productId := item.productId, priceId := item.priceId,
        stockId := item.stockId, quantity := item.quantity, unitPrice := item.unitPrice,
        subtotal := item.subtotal }
    match db.getStockS item.stockId with
    | (none, db1) =>
      (db1, oiAcc, reduceAcc, moveAcc,
        some ("failed to get stock for item " ++ item.productId))
    | (some stockModel, db1) =>
      if stockModel.quantity < (item.quantity : Int) then
        (db1, oiAcc, reduceAcc, moveAcc,
          some ("insufficient stock for product " ++ item.productId))
      else
        createOrderLoop now orderId rest db1 (oiAcc ++ [oi])
          (reduceAcc ++ [{ stockID := item.stockId, quantity := (item.quantity : Int),
                           lastUpdated := stockModel.updatedAt }])
          (moveAcc ++ [{ stockID := item.stockId, quantity := (item.quantity : Int),
                         type := .stockOut, referenceID := orderId, referenceType := .order }])

/-- The transaction body of service `CreateOrder`: validate, insert the order
row (SERIAL id; the table stores no items), run the item loop, insert the
order items, reduce stock, write the movements, recompute the totals. -/
def createOrderBody (now : Time) (order : Order) (db : DB) : DB × Option String :=
  match order.Validate with
  | some e => (db, some ("invalid order data: " ++ e))
  | none =>
    let orderId := db.nextId
    let orderRow := { order with
      id := orderId
      items := []
      createdAt := now
      updatedAt := now }
    let db1 := { db with orders := db.orders ++ [orderRow], nextId := db.nextId + 1 }
    match createOrderLoop now orderId order.items db1 [] [] [] with
    | (db2, _, _, _, some e) => (db2, some e)
    | (db2, orderItems, reduceParams, moveParams, none) =>
      match addOrderItems orderItems db2 with
      | (db3, some e) => (db3, some ("failed to add order items: " ++ e))
      | (db3, none) =>
        match reduceStock now reduceParams db3.stocks with
        | (_, some e) => (db3, some ("failed to reduce stock: " ++ e))
        | (stocks1, none) =>
          let db4 := { db3 with stocks := stocks1 }
          match createStockMovements now moveParams db4.stockMovements with
          | (_, some e) => (db4, some ("failed to create stock movements: " ++ e))
          | (movs, none) =>
            let db5 := { db4 with stockMovements := movs }
            match updateOrderTotals now orderId db5 with
            | (db6, some e) => (db6, some ("failed to update order totals: " ++ e))
            | (db6, none) => (db6, none)

/-- service `CreateOrder` (manual order creation). -/
def CreateOrder (now : Time) (order : Order) (db : DB) : TxResult DB :=
  ExecuteTransaction (createOrderBody now order) db

/-- The stock-restoration loop of service `UpdateOrderStatus` (run only for
transitions into cancelled/refunded): read each order item's stock and
accumulate `AdjustStock` (positive quantity) and movement (`Type = in`,
`ReferenceType = order`) parameters. -/
def updateOrderStatusLoop (now : Time) (orderID : Nat) (items : List OrderItem) (db : DB)
    (adjustAcc : List AdjustStockParams) (moveAcc : List CreateStockMovementParams) :
    DB × List AdjustStockParams × List CreateStockMovementParams × Option String :=
  match items with
  | [] => (db, adjustAcc, moveAcc, none)
  | item :: rest =>
    match db.getStockS item.stockId with
    | (none, db1) =>
      (db1, adjustAcc, moveAcc, some ("failed to get stock for item " ++ item.productId))
    | (some stockModel, db1) =>
      updateOrderStatusLoop now orderID rest db1
        (adjustAcc ++ [{ stockID := item.stockId, quantity := (item.quantity : Int),
                         lastUpdated := stockModel.updatedAt }])
        (moveAcc ++ [{ stockID := item.stockId, quantity := (item.quantity : Int),
                       type := .stockIn, referenceID := orderID, referenceType := .order }])

/-- The transaction body of service `UpdateOrderStatus`: load the order,
check `AllowChangeStatus`, persist the new status (`updated_at = NOW()`), and
for transitions into cancelled/refunded restore stock and write movements. -/
def updateOrderStatusBody (now : Time) (orderID : Nat) (newStatus : OrderStatus)
    (db : DB) : DB × Option String :=
  match db.orders.find? (fun o => o.id == orderID) with
  | none => (db, some "failed to get order")
  | some orderModel =>
    if ¬ orderModel.AllowChangeStatus newStatus then
      (db, some "invalid status transition")
    else
      let db1 := { db with orders := db.orders.map (fun o =>
        if o.id == orderID then { o with status := newStatus, updatedAt := now } else o) }
      if newStatus = .cancelled ∨ newStatus = .refunded then
        let items := db1.orderItems.filter (fun oi => oi.orderId == orderID)
        match updateOrderStatusLoop now orderID items db1 [] [] with
        | (db2, _, _, some e) => (db2, some e)
        | (db2, adjustParams, moveParams, none) =>
          match adjustStock now adjustParams db2.stocks with
          | (_, some e) => (db2, some ("failed to adjust stock: " ++ e))
          | (stocks1, none) =>
            let db3 := { db2 with stocks := stocks1 }
            match createStockMovements now moveParams db3.stockMovements with
            | (_, some e) => (db3, some ("failed to create stock movements: " ++ e))
            | (movs, none) => ({ db3 with stockMovements := movs }, none)
      else (db1, none)

/-- service `UpdateOrderStatus`. -/
def UpdateOrderStatus (now : Time) (orderID : Nat) (newStatus : OrderStatus)
    (db : DB) : TxResult DB :=
  ExecuteTransaction (updateOrderStatusBody now orderID newStatus) db

/-! ## Event pipeline (event.go `service.ProcessEvent`) -/

/-- A row of the `events` dedup table / models.Event. -/
structure ProcessedEvent where
  id : String
  type : String
  processed : Bool
  createdAt : Time
  updatedAt : Time
deriving DecidableEq, Repr

/-- An inbound external event, reduced to the fields `ProcessEvent` reads. -/
structure ExternalEvent where
  id : String
  type : String
deriving DecidableEq, Repr

/-- The outcome of one `ProcessEvent` call: the dedup table afterwards, the
error returned to the caller, and how many times the registered handler was
invoked during the call (0 or 1). -/
structure ProcessEventResult where
  events : List ProcessedEvent
  error : Option String
  handlerInvocations : Nat
deriving DecidableEq, Repr

/-- event.go `service.ProcessEvent`.  `handlers` models the EventManager
registry: for a registered event type it yields the (pure) result the handler
invocation returns.  The source: (1) a hit on `event.ID` in the dedup table
short-circuits with a nil error and no handler call; (2) an unregistered type
fails without persisting anything; (3) otherwise a row with `processed=false`
is persisted before the handler runs, and the handler's error, if any, is
returned after the row is already in place. -/
def ProcessEvent (handlers : String → Option (Option String)) (now : Time)
    (events : List ProcessedEvent) (e : ExternalEvent) : ProcessEventResult :=
  if (events.find? (fun pe => pe.id == e.id)).isSome then
    { events := events, error := none, handlerInvocations := 0 }
  else
    match handlers e.type with
    | none =>
      { events := events, error := some ("no handler registered for event type: " ++ e.type),
        handlerInvocations := 0 }
    | some handlerResult =>
      let events1 := events ++
        [{ id := e.id, type := e.type, processed := false, createdAt := now, updatedAt := now }]
      { events := events1, error := handlerResult, handlerInvocations := 1 }

/-! ## The spec's §4.3 transition table, written independently of the code
for comparison with `AllowedTransitions` / `AllowChangeStatus`. -/

/-- The allowed-transition relation exactly as §4.3 lists it: pending →
{paid, cancelled, failed}; paid → {completed, refunded, partially_refunded,
dispute}; failed → {pending}; partially_refunded → {refunded}; dispute →
{paid, refunded}; cancelled, refunded, completed terminal; anything not
listed rejected. -/
def specAllowedTransition : OrderStatus → OrderStatus → Bool
  | .pending, .paid => true
  | .pending, .cancelled => true
  | .pending, .failed => true
  | .paid, .completed => true
  | .paid, .refunded => true
  | .paid, .partiallyRefunded => true
  | .paid, .dispute => true
  | .failed, .pending => true
  | .partiallyRefunded, .refunded => true
  | .dispute, .paid => true
  | .dispute, .refunded => true
  | _, _ => false

/-! ## Concrete fixtures used by the counterexamples and witnesses -/

/-- A stock row whose concurrency token is 10. -/
def c2Stock : Stock :=
  { id := 1, productId := "A", quantity := 10, reservedQuantity := 2, location := "",
    createdAt := 0, updatedAt := 10 }

/-- The stock rows of the insufficient-stock scenario: item A's stock has 10
free units, item B's stock has none free (quantity 1, all of it reserved). -/
def c5Stock1 : Stock :=
  { id := 1, productId := "A", quantity := 10, reservedQuantity := 0, location := "",
    createdAt := 0, updatedAt := 0 }

def c5Stock2 : Stock :=
  { id := 2, productId := "B", quantity := 1, reservedQuantity := 1, location := "",
    createdAt := 0, updatedAt := 0 }

def c5Cart : Cart :=
  { id := 1, customerId := "c", status := .active, currency := "usd", subtotal := 0,
    tax := 0, discount := 0, total := 0, createdAt := 0, updatedAt := 0, expiresAt := 9 }

def c5ItemA : CartItem :=
  { id := 0, cartId := 0, productId := "A", priceId := "p1", stockId := 1, quantity := 3,
    unitPrice := 2, subtotal := 6 }

def c5ItemB : CartItem :=
  { id := 0, cartId := 0, productId := "B", priceId := "p2", stockId := 2, quantity := 1,
    unitPrice := 5, subtotal := 5 }

def c5Db : DB :=
  { stocks := [c5Stock1, c5Stock2], stockMovements := [], carts := [c5Cart],
    cartItems := [], orders := [], orderItems := [], stockCache := [], nextId := 100 }

/-- Stock and cart item for the remove-item scenario: 2 units of product A
are reserved; cart item 5 holds those 2 units. -/
def c7Stock : Stock :=
  { id := 1, productId := "A", quantity := 10, reservedQuantity := 2, location := "",
    createdAt := 0, updatedAt := 0 }

def c7Item : CartItem :=
  { id := 5, cartId := 1, productId := "A", priceId := "p", stockId := 1, quantity := 2,
    unitPrice := 3, subtotal := 6 }

def c7Db : DB :=
  { stocks := [c7Stock], stockMovements := [], carts := [], cartItems := [c7Item],
    orders := [], orderItems := [], stockCache := [], nextId := 50 }

/-- The database row of stock 1 (token 7) and a stale cached copy of it
(token 5, different reserved quantity). -/
def c8Fresh : Stock :=
  { id := 1, productId := "A", quantity := 10, reservedQuantity := 2, location := "",
    createdAt := 0, updatedAt := 7 }

def c8Stale : Stock := { c8Fresh with reservedQuantity := 5, updatedAt := 5 }

/-- An event-handler registry with exactly one type registered, whose handler
fails. -/
def c4Handlers : String → Option (Option String) :=
  fun t => if t = "payment_intent.succeeded" then some (some "handler failed") else none

def c4Event : ExternalEvent := { id := "evt_1", type := "payment_intent.succeeded" }

/-- A pending order (id 7) with no items, and the database holding it. -/
def c3Order : Order :=
  { id := 7, customerId := "c", cartId := none, status := .pending, currency := "usd",
    subtotal := 6, tax := 0, discount := 0, total := 6, paymentIntentId := "",
    items := [], createdAt := 0, updatedAt := 0 }

def c3Db : DB :=
  { stocks := [], stockMovements := [], carts := [], cartItems := [], orders := [c3Order],
    orderItems := [], stockCache := [], nextId := 200 }

/-- An active cart (id 1) holding one item of product A backed by stock 1,
and the database around it. -/
def c9Cart : Cart :=
  { id := 1, customerId := "c", status := .active, currency := "usd", subtotal := 6,
    tax := 0, discount := 0, total := 6, createdAt := 0, updatedAt := 0, expiresAt := 9 }

def c9Item : CartItem :=
  { id := 4, cartId := 1, productId := "A", priceId := "p1", stockId := 1, quantity := 3,
    unitPrice := 2, subtotal := 6 }

def c9Stock : Stock :=
  { id := 1, productId := "A", quantity := 10, reservedQuantity := 3, location := "",
    createdAt := 0, updatedAt := 0 }

def c9Db : DB :=
  { stocks := [c9Stock], stockMovements := [], carts := [c9Cart], cartItems := [c9Item],
    orders := [], orderItems := [], stockCache := [], nextId := 300 }

/-- A manual order of 3 units of product A, and a stock row with 10 on hand
and nothing reserved. -/
def c10Item : OrderItem :=
  { id := 0, orderId := 0, productId := "A", priceId := "p1", stockId := 1, quantity := 3,
    unitPrice := 2, subtotal := 6 }

def c10Order : Order :=
  { id := 0, customerId := "c", cartId := none, status := .pending, currency := "usd",
    subtotal := 6, tax := 0, discount := 0, total := 6, paymentIntentId := "",
    items := [c10Item], createdAt := 0, updatedAt := 0 }

def c10Stock : Stock :=
  { id := 1, productId := "A", quantity := 10, reservedQuantity := 0, location := "",
    createdAt := 0, updatedAt := 0 }

def c10Db : DB :=
  { stocks := [c10Stock], stockMovements := [], carts := [], cartItems := [], orders := [],
    orderItems := [], stockCache := [], nextId := 400 }

/-! ## General lemmas about the stock batch operations -/

theorem foldl_map_rows {α β : Type} (f : β → α → α) (params : List β) (l : List α) :
    params.foldl (fun st p => st.map (f p)) l =
      l.map (fun s => params.foldl (fun r p => f p r) s) := by
  induction params generalizing l with
  | nil => simp
  | cons p ps ih =>
    rw [List.foldl_cons, ih, List.map_map]
    rfl

theorem adjustStockRow_stale (now : Time) (p : AdjustStockParams) (s : Stock)
    (h : p.stockID = s.id → p.lastUpdated ≠ s.updatedAt) :
    adjustStockRow now p s = s := by
  unfold adjustStockRow
  rw [if_neg]
  rintro ⟨h1, h2⟩
  exact h h1.symm h2.symm

theorem releaseStockRow_stale (now : Time) (p : ReleaseStockParams) (s : Stock)
    (h : p.stockID = s.id → p.lastUpdated ≠ s.updatedAt) :
    releaseStockRow now p s = s := by
  unfold releaseStockRow
  rw [if_neg]
  rintro ⟨h1, h2⟩
  exact h h1.symm h2.symm

theorem reduceStockRow_stale (now : Time) (p : ReduceStockParams) (s : Stock)
    (h : p.stockID = s.id → p.lastUpdated ≠ s.updatedAt) :
    reduceStockRow now p s = s := by
  unfold reduceStockRow
  rw [if_neg]
  rintro ⟨h1, h2⟩
  exact h h1.symm h2.symm

theorem foldl_row_fix {β : Type} (step : β → Stock → Stock) (params : List β) (s : Stock)
    (h : ∀ p ∈ params, step p s = s) :
    params.foldl (fun r p => step p r) s = s := by
  induction params with
  | nil => rfl
  | cons p ps ih =>
    rw [List.foldl_cons, h p (by simp)]
    exact ih (fun q hq => h q (by simp [hq]))

/-! ## General lemmas about stock reads and the workflow loops -/

theorem getStockS_some (db : DB) (sid : Nat) (h : ∃ s ∈ db.stocks, s.id = sid) :
    ∃ st c, db.getStockS sid = (some st, { db with stockCache := c }) := by
  unfold DB.getStockS getStock
  cases hl : db.stockCache.lookup sid with
  | some s => exact ⟨s, db.stockCache, rfl⟩
  | none =>
    cases hf : db.stocks.find? (fun s => s.id == sid) with
    | some s => exact ⟨s, (sid, s) :: db.stockCache, rfl⟩
    | none =>
      obtain ⟨s, hs, hid⟩ := h
      have : (db.stocks.find? (fun s => s.id == sid)).isSome := by
        rw [List.find?_isSome]
        exact ⟨s, hs, by simp [hid]⟩
      rw [hf] at this
      simp at this

theorem updateOrderStatusLoop_ok (now : Time) (orderID : Nat) (items : List OrderItem)
    (db : DB) (adjustAcc : List AdjustStockParams)
    (moveAcc : List CreateStockMovementParams)
    (h : ∀ oi ∈ items, ∃ s ∈ db.stocks, s.id = oi.stockId) :
    ∃ c1 a1 m1, updateOrderStatusLoop now orderID items db adjustAcc moveAcc =
      ({ db with stockCache := c1 }, a1, m1, none) := by
  induction items generalizing db adjustAcc moveAcc with
  | nil => exact ⟨db.stockCache, adjustAcc, moveAcc, rfl⟩
  | cons item rest ih =>
    obtain ⟨st, c, hget⟩ := getStockS_some db item.stockId (h item (by simp))
    have hrest : ∀ oi ∈ rest,
        ∃ s ∈ ({ db with stockCache := c } : DB).stocks, s.id = oi.stockId :=
      fun oi hoi => h oi (by simp [hoi])
    obtain ⟨c1, a1, m1, hloop⟩ := ih { db with stockCache := c } _ _ hrest
    refine ⟨c1, a1, m1, ?_⟩
    unfold updateOrderStatusLoop
    rw [hget]
    exact hloop

/-! ## Claim C1 -/

/-- Claim C1: the claim states that `ExecuteTransactionWithOptions` commits
iff `fn` returned nil, and on a non-nil error rolls back (never commits)
while propagating the error.  The code instead commits on every non-panic
exit — the deferred closure tests the local `err` that `BeginTx` assigned,
which `return fn(dbTx)` never reassigns — so a body that mutates the state
and returns an error has its mutation committed and the error propagated.
This theorem evaluates the wrapper at such a body: the state moved from 0 to
1, the error came back, and the transaction was committed. -/
theorem executeTransactionWithOptions_commits_on_fn_error :
    ExecuteTransactionWithOptions (fun n : Nat => (n + 1, some "handler failed")) 0 =
      { db := 1, error := some "handler failed", committed := true } := rfl

/-! ## Claim C2 -/

/-- Claim C2 counterexample: applying `AdjustStock` with a stale
`expectedUpdatedAt` (3, while the row's token is 10) leaves the row unchanged
but returns a nil error — success — whereas the claim requires the stale
token to surface as a conflict error rather than success. -/
theorem adjustStock_stale_token_silent_success :
    adjustStock 11 [{ stockID := 1, quantity := 5, lastUpdated := 3 }] [c2Stock] =
      ([c2Stock], none) := by decide

/-- Claim C2 (amended): for every batch item of `AdjustStock`, `ReleaseStock`
or `ReduceStock` whose `expectedUpdatedAt` differs from the stock row's
current `updatedAt`, the stock row is left unchanged, and the call reports
success (nil error): the stale token is silently skipped, no conflict is
surfaced to the caller. -/
theorem staleToken_noop_and_reports_success (now : Time)
    (aps : List AdjustStockParams) (rps : List ReleaseStockParams)
    (dps : List ReduceStockParams) (stocks : List Stock) (i : Nat) (s : Stock)
    (hrow : stocks[i]? = some s)
    (ha : ∀ p ∈ aps, p.stockID = s.id → p.lastUpdated ≠ s.updatedAt)
    (hr : ∀ p ∈ rps, p.stockID = s.id → p.lastUpdated ≠ s.updatedAt)
    (hd : ∀ p ∈ dps, p.stockID = s.id → p.lastUpdated ≠ s.updatedAt) :
    ((adjustStock now aps stocks).1[i]? = some s ∧ (adjustStock now aps stocks).2 = none) ∧
    ((releaseStock now rps stocks).1[i]? = some s ∧ (releaseStock now rps stocks).2 = none) ∧
    ((reduceStock now dps stocks).1[i]? = some s ∧ (reduceStock now dps stocks).2 = none) := by
  refine ⟨⟨?_, rfl⟩, ⟨?_, rfl⟩, ⟨?_, rfl⟩⟩
  · show (aps.foldl (fun st p => st.map (adjustStockRow now p)) stocks)[i]? = some s
    rw [foldl_map_rows, List.getElem?_map, hrow, Option.map_some',
      foldl_row_fix _ _ _ (fun p hp => adjustStockRow_stale now p s (ha p hp))]
  · show (rps.foldl (fun st p => st.map (releaseStockRow now p)) stocks)[i]? = some s
    rw [foldl_map_rows, List.getElem?_map, hrow, Option.map_some',
      foldl_row_fix _ _ _ (fun p hp => releaseStockRow_stale now p s (hr p hp))]
  · show (dps.foldl (fun st p => st.map (reduceStockRow now p)) stocks)[i]? = some s
    rw [foldl_map_rows, List.getElem?_map, hrow, Option.map_some',
      foldl_row_fix _ _ _ (fun p hp => reduceStockRow_stale now p s (hd p hp))]

/-- Witness for the amended C2 theorem at a concrete stale batch. -/
theorem staleToken_noop_and_reports_success_witness :
    ([c2Stock][0]? = some c2Stock) ∧
    (∀ p ∈ [({ stockID := 1, quantity := 5, lastUpdated := 3 } : AdjustStockParams)],
      p.stockID = c2Stock.id → p.lastUpdated ≠ c2Stock.updatedAt) ∧
    ((adjustStock 11 [{ stockID := 1, quantity := 5, lastUpdated := 3 }] [c2Stock]).1[0]? =
        some c2Stock ∧
      (releaseStock 11 [{ stockID := 1, quantity := 4, lastUpdated := 9 }] [c2Stock]).2 =
        none) :=
  ⟨by decide, by decide, by
    have h := staleToken_noop_and_reports_success 11
      [{ stockID := 1, quantity := 5, lastUpdated := 3 }]
      [{ stockID := 1, quantity := 4, lastUpdated := 9 }]
      [{ stockID := 1, quantity := 2, lastUpdated := 8 }]
      [c2Stock] 0 c2Stock (by decide) (by decide) (by decide) (by decide)
    exact ⟨h.1.1, h.2.1.2⟩⟩

/-! ## Claim C4 -/

/-- Claim C4: submitting the same external event id twice executes the
registered handler at most once in total; the second submission finds the
dedup row the first one persisted before dispatch (persisted regardless of
the handler's outcome), runs no handler, leaves the table unchanged and
returns success. -/
theorem processEvent_handler_at_most_once (handlers : String → Option (Option String))
    (now1 now2 : Time) (events : List ProcessedEvent) (e : ExternalEvent)
    (hreg : handlers e.type ≠ none) :
    (ProcessEvent handlers now1 events e).handlerInvocations +
      (ProcessEvent handlers now2 (ProcessEvent handlers now1 events e).events
        e).handlerInvocations ≤ 1 ∧
    (ProcessEvent handlers now2 (ProcessEvent handlers now1 events e).events e).error =
      none ∧
    (ProcessEvent handlers now2 (ProcessEvent handlers now1 events e).events e).events =
      (ProcessEvent handlers now1 events e).events := by
  by_cases hseen : (events.find? (fun pe => pe.id == e.id)).isSome
  · have h1 : ProcessEvent handlers now1 events e = ⟨events, none, 0⟩ := by
      unfold ProcessEvent
      rw [if_pos hseen]
    rw [h1]
    have h2 : ProcessEvent handlers now2 events e = ⟨events, none, 0⟩ := by
      unfold ProcessEvent
      rw [if_pos hseen]
    rw [h2]
    exact ⟨by simp, rfl, rfl⟩
  · obtain ⟨res, hres⟩ := Option.ne_none_iff_exists'.mp hreg
    have h1 : ProcessEvent handlers now1 events e =
        ⟨events ++ [⟨e.id, e.type, false, now1, now1⟩], res, 1⟩ := by
      unfold ProcessEvent
      rw [if_neg hseen, hres]
    rw [h1]
    have hseen2 : (((events ++ [⟨e.id, e.type, false, now1, now1⟩] :
        List ProcessedEvent)).find? (fun pe => pe.id == e.id)).isSome := by
      rw [List.find?_isSome]
      exact ⟨⟨e.id, e.type, false, now1, now1⟩, by simp, by simp⟩
    have h2 : ProcessEvent handlers now2 (events ++ [⟨e.id, e.type, false, now1, now1⟩]) e =
        ⟨events ++ [⟨e.id, e.type, false, now1, now1⟩], none, 0⟩ := by
      unfold ProcessEvent
      rw [if_pos hseen2]
    rw [h2]
    exact ⟨by simp, rfl, rfl⟩

/-- Witness for C4: a registered but failing handler, submitted twice. -/
theorem processEvent_handler_at_most_once_witness :
    (c4Handlers c4Event.type ≠ none) ∧
    ((ProcessEvent c4Handlers 1 [] c4Event).handlerInvocations +
      (ProcessEvent c4Handlers 2 (ProcessEvent c4Handlers 1 [] c4Event).events
        c4Event).handlerInvocations ≤ 1 ∧
    (ProcessEvent c4Handlers 2 (ProcessEvent c4Handlers 1 [] c4Event).events
      c4Event).error = none) :=
  ⟨by decide, by
    have h := processEvent_handler_at_most_once c4Handlers 1 2 [] c4Event (by decide)
    exact ⟨h.1, h.2.1⟩⟩

/-! ## Claim C6 -/

/-- Claim C6: the claim states that every stock-movement row carries the
caller-supplied movement `Type` in its `type` column.  The repository instead
fills the sqlc `Type` field from `param.ReferenceType`: a parameter with
`Type = reserve`, `ReferenceType = cart` produces a row whose type column
holds "cart" — not the caller's "reserve", and not even a member of the
`stock_movement_type` enum of the schema. -/
theorem createStockMovements_writes_referenceType_into_type_column :
    (createStockMovements 7 [⟨1, 3, .reserve, 42, .cart⟩] []).1 =
      [⟨1, 3, "cart", 42, "cart", 7⟩] ∧
    StockMovementType.reserve.val = "reserve" ∧
    validStockMovementTypes.contains "cart" = false := by decide

/-! ## Claim C7 -/

/-- Claim C7: the claim states that a successful `RemoveItemFromCart` leaves
the item's stock row with `reservedQuantity` decreased by the item's quantity
and records a `release` movement.  The code instead calls `AdjustStock` with
the item's positive quantity — `reservedQuantity` rises from 2 to 4 for a
2-unit item — and builds its movement parameter with `Type = reserve`
(stored, through the repository's type/reference slip, as "cart"): no
movement row of type "release" exists after the call. -/
theorem removeItemFromCart_increments_reservation :
    (RemoveItemFromCart 9 1 5 c7Db).error = none ∧
    (RemoveItemFromCart 9 1 5 c7Db).db.stocks =
      [{ c7Stock with reservedQuantity := 4, updatedAt := 9 }] ∧
    (RemoveItemFromCart 9 1 5 c7Db).db.stockMovements.map StockMovement.quantity = [2] ∧
    (RemoveItemFromCart 9 1 5 c7Db).db.stockMovements.filter
      (fun m => m.type == "release") = [] := by decide

/-! ## Claim C8 -/

/-- Claim C8 counterexample: with a stale cached copy of stock 1 (token 5,
reserved 5) sitting in front of the database row (token 7, reserved 2),
`GetStock` returns the cached copy, not the row currently stored in the
database — its `updatedAt` is not the database row's current token. -/
theorem getStock_returns_stale_cache_entry :
    (getStock [(1, c8Stale)] [c8Fresh] 1).1 = some c8Stale ∧
    c8Stale.updatedAt ≠ c8Fresh.updatedAt ∧
    (getStock [(1, c8Stale)] [c8Fresh] 1).1 ≠ some c8Fresh := by decide

/-- Claim C8 (amended): `GetStock` returns the stock row as currently stored
in the database — and hence the authoritative `updatedAt` token — only when
the cache holds no entry for the stockID; a cached entry, when present, is
returned as-is and may be stale. -/
theorem getStock_cache_miss_returns_db_row (cache : List (Nat × Stock))
    (stocks : List Stock) (stockID : Nat) (s : Stock)
    (hmiss : cache.lookup stockID = none)
    (hfind : stocks.find? (fun t => t.id == stockID) = some s) :
    (getStock cache stocks stockID).1 = some s := by
  unfold getStock
  rw [hmiss, hfind]

/-- Witness for the amended C8 theorem: an empty cache and stock 1 in the
database. -/
theorem getStock_cache_miss_returns_db_row_witness :
    (([] : List (Nat × Stock)).lookup 1 = none) ∧
    ([c8Fresh].find? (fun t => t.id == 1) = some c8Fresh) ∧
    (getStock [] [c8Fresh] 1).1 = some c8Fresh :=
  ⟨by decide, by decide,
    getStock_cache_miss_returns_db_row [] [c8Fresh] 1 c8Fresh (by decide) (by decide)⟩

/-! ## Claim C5 -/

/-- Claim C5: the claim states that an `AddItemsToCart` call containing an
item whose quantity exceeds `quantity - reservedQuantity` returns an error
and leaves stock, cart, cart-item and movement rows all unchanged, including
mutations made for earlier items of the same call.  The error is returned and
stock and movement rows are indeed untouched (the batch mutations run only
after the loop), but the transaction wrapper commits despite the error
(claim C1's slip), so the cart-item row inserted for the earlier item A is
persisted: the cart_items table is not left unchanged. -/
theorem addItemsToCart_insufficient_stock_commits_partial_state :
    (AddItemsToCart 5 "c" 1 [c5ItemA, c5ItemB] "usd" c5Db).error =
      some "insufficient stock for item B" ∧
    (AddItemsToCart 5 "c" 1 [c5ItemA, c5ItemB] "usd" c5Db).committed = true ∧
    (AddItemsToCart 5 "c" 1 [c5ItemA, c5ItemB] "usd" c5Db).db.cartItems =
      [{ c5ItemA with id := 100, cartId := 1 }] ∧
    (AddItemsToCart 5 "c" 1 [c5ItemA, c5ItemB] "usd" c5Db).db.cartItems ≠
      c5Db.cartItems ∧
    (AddItemsToCart 5 "c" 1 [c5ItemA, c5ItemB] "usd" c5Db).db.stocks = c5Db.stocks ∧
    (AddItemsToCart 5 "c" 1 [c5ItemA, c5ItemB] "usd" c5Db).db.stockMovements = [] := by
  decide

/-! ## Claim C3 -/

theorem allowChangeStatus_eq_spec (o : Order) (ns : OrderStatus) :
    o.AllowChangeStatus ns = specAllowedTransition o.status ns := by
  unfold Order.AllowChangeStatus
  cases h : o.status <;> cases ns <;> rfl

/-- Claim C3: for an order present in the store, the workflow
`UpdateOrderStatus` succeeds iff the requested status is in the
allowed-transition set of the order's current status exactly as the §4.3
table lists it (`specAllowedTransition`, written from the table), and every
disallowed pair fails leaving the database — in particular the order —
unchanged.  The stock hypothesis supplies the stock rows the
cancelled/refunded restoration path reads. -/
theorem updateOrderStatus_succeeds_iff_allowed (now : Time) (orderID : Nat)
    (newStatus : OrderStatus) (db : DB) (o : Order)
    (horder : db.orders.find? (fun x => x.id == orderID) = some o)
    (hstocks : ∀ oi ∈ db.orderItems, ∃ s ∈ db.stocks, s.id = oi.stockId) :
    ((UpdateOrderStatus now orderID newStatus db).error = none ↔
      specAllowedTransition o.status newStatus = true) ∧
    (specAllowedTransition o.status newStatus = false →
      (UpdateOrderStatus now orderID newStatus db).db = db) := by
  have hres : UpdateOrderStatus now orderID newStatus db =
      ⟨(updateOrderStatusBody now orderID newStatus db).1,
       (updateOrderStatusBody now orderID newStatus db).2, true⟩ := rfl
  rw [hres]
  have hspec := allowChangeStatus_eq_spec o newStatus
  by_cases hallow : o.AllowChangeStatus newStatus
  · -- allowed: the body ends with a nil error on every branch
    have hbody : (updateOrderStatusBody now orderID newStatus db).2 = none := by
      simp only [updateOrderStatusBody, horder]
      rw [if_neg (show ¬¬(o.AllowChangeStatus newStatus = true) from by simp [hallow])]
      by_cases hcr : newStatus = OrderStatus.cancelled ∨ newStatus = OrderStatus.refunded
      · rw [if_pos hcr]
        obtain ⟨c1, a1, m1, hloop⟩ := updateOrderStatusLoop_ok now orderID
          (db.orderItems.filter (fun oi => oi.orderId == orderID))
          ({ db with orders := db.orders.map (fun x => if x.id == orderID then
              { x with status := newStatus, updatedAt := now } else x) }) [] []
          (fun oi hoi => hstocks oi (List.mem_of_mem_filter hoi))
        rw [hloop]
        rfl
      · rw [if_neg hcr]
    rw [hbody]
    constructor
    · rw [← hspec]
      simp [hallow]
    · intro hfalse
      rw [← hspec] at hfalse
      rw [hallow] at hfalse
      exact absurd hfalse (by simp)
  · -- disallowed: the body fails before any mutation
    have hbody : updateOrderStatusBody now orderID newStatus db =
        (db, some "invalid status transition") := by
      simp only [updateOrderStatusBody, horder]
      rw [if_pos (show ¬(o.AllowChangeStatus newStatus = true) from by simpa using hallow)]
    rw [hbody]
    constructor
    · rw [← hspec]
      constructor
      · intro hn
        exact absurd hn (by simp)
      · intro htrue
        exact absurd htrue (by simpa using hallow)
    · intro _
      rfl

theorem reduceStockRow_id (now : Time) (p : ReduceStockParams) (s : Stock) :
    (reduceStockRow now p s).id = s.id := by
  unfold reduceStockRow
  split <;> rfl

/-- Witness for C3: a pending order with no items, asked to become paid. -/
theorem updateOrderStatus_succeeds_iff_allowed_witness :
    (c3Db.orders.find? (fun x => x.id == 7) = some c3Order) ∧
    (∀ oi ∈ c3Db.orderItems, ∃ s ∈ c3Db.stocks, s.id = oi.stockId) ∧
    ((UpdateOrderStatus 5 7 OrderStatus.paid c3Db).error = none ↔
      specAllowedTransition c3Order.status OrderStatus.paid = true) ∧
    (UpdateOrderStatus 5 7 OrderStatus.cancelled c3Db).error = none :=
  ⟨by decide, by decide,
    (updateOrderStatus_succeeds_iff_allowed 5 7 OrderStatus.paid c3Db c3Order
      (by decide) (by decide)).1,
    by
      have h := (updateOrderStatus_succeeds_iff_allowed 5 7 OrderStatus.cancelled c3Db
        c3Order (by decide) (by decide)).1
      exact h.mpr (by decide)⟩

/-! ## Claim C9 -/

theorem convertLoop_ok (now : Time) (orderId : Nat) (items : List CartItem) (db : DB)
    (oiAcc : List OrderItem) (reduceAcc : List ReduceStockParams)
    (moveAcc : List CreateStockMovementParams)
    (h : ∀ ci ∈ items, ∃ s ∈ db.stocks, s.id = ci.stockId) :
    ∃ c1 r1 m1, convertLoop now orderId items db oiAcc reduceAcc moveAcc =
      ({ db with stockCache := c1 },
       oiAcc ++ items.map (fun item => ⟨0, orderId, item.productId, item.priceId,
         item.stockId, item.quantity, item.unitPrice, item.subtotal⟩),
       r1, m1, none) := by
  induction items generalizing db oiAcc reduceAcc moveAcc with
  | nil =>
    refine ⟨db.stockCache, reduceAcc, moveAcc, ?_⟩
    unfold convertLoop
    simp
  | cons item rest ih =>
    obtain ⟨st, c, hget⟩ := getStockS_some db item.stockId (h item (by simp))
    obtain ⟨c1, r1, m1, hloop⟩ := ih { db with stockCache := c }
      (oiAcc ++ [⟨0, orderId, item.productId, item.priceId, item.stockId, item.quantity,
        item.unitPrice, item.subtotal⟩])
      (reduceAcc ++ [⟨item.stockId, (item.quantity : Int), st.updatedAt⟩])
      (moveAcc ++ [⟨item.stockId, (item.quantity : Int), .stockOut, orderId, .order⟩])
      (fun ci hci => h ci (by simp [hci]))
    refine ⟨c1, r1, m1, ?_⟩
    have hstep : convertLoop now orderId (item :: rest) db oiAcc reduceAcc moveAcc =
        convertLoop now orderId rest { db with stockCache := c }
          (oiAcc ++ [⟨0, orderId, item.productId, item.priceId, item.stockId,
            item.quantity, item.unitPrice, item.subtotal⟩])
          (reduceAcc ++ [⟨item.stockId, (item.quantity : Int), st.updatedAt⟩])
          (moveAcc ++ [⟨item.stockId, (item.quantity : Int), .stockOut, orderId,
            .order⟩]) := by
      conv_lhs => unfold convertLoop
      rw [hget]
    rw [hstep, hloop]
    simp

theorem addOrderItems_ok (items : List OrderItem) (db : DB) :
    ∃ assigned nid, addOrderItems items db =
      ({ db with orderItems := db.orderItems ++ assigned, nextId := nid }, none) ∧
      assigned.map (fun oi => { oi with id := 0 }) =
        items.map (fun oi => { oi with id := 0 }) := by
  induction items generalizing db with
  | nil => exact ⟨[], db.nextId, by simp [addOrderItems], rfl⟩
  | cons oi rest ih =>
    obtain ⟨assigned, nid, heq, hmap⟩ := ih
      ({ db with
        orderItems := db.orderItems ++ [{ oi with id := db.nextId }]
        nextId := db.nextId + 1 })
    refine ⟨{ oi with id := db.nextId } :: assigned, nid, ?_, ?_⟩
    · have hstep : addOrderItems (oi :: rest) db = addOrderItems rest
          ({ db with
            orderItems := db.orderItems ++ [{ oi with id := db.nextId }]
            nextId := db.nextId + 1 }) := rfl
      rw [hstep, heq]
      simp [List.append_assoc]
    · simpa using hmap

theorem forall_mem_of_map_eq {α β γ : Type} {f : α → γ} {g : β → γ} {l : List α}
    {L : List β} (h : l.map f = L.map g) (P : γ → Prop) (hP : ∀ b ∈ L, P (g b)) :
    ∀ a ∈ l, P (f a) := by
  intro a ha
  have hmem : f a ∈ l.map f := List.mem_map_of_mem f ha
  rw [h] at hmem
  obtain ⟨b, hb, heq⟩ := List.mem_map.mp hmem
  rw [← heq]
  exact hP b hb

/-- Claim C9: for an active cart with a non-empty item list (whose stored
items satisfy the CartItem invariant `subtotal = quantity * unitPrice` of the
data model), a successful `ConvertCartToOrder` produces an order whose
order_items rows reproduce exactly the cart items' productId, priceId,
stockId, quantity and unitPrice — and their subtotal — with
`subtotal = quantity * unitPrice` for each resulting item.  `hstocks`
supplies the stock rows the conversion reads; `hfresh` says the fresh order
id is not already used by an order_items row. -/
theorem convertCartToOrder_round_trip (now : Time) (cartID : Nat) (db : DB) (cart : Cart)
    (hcart : db.carts.find? (fun c => c.id == cartID) = some cart)
    (hactive : cart.status = CartStatus.active)
    (hne : db.cartItems.filter (fun ci => ci.cartId == cartID) ≠ [])
    (hstocks : ∀ ci ∈ db.cartItems.filter (fun ci => ci.cartId == cartID),
        ∃ s ∈ db.stocks, s.id = ci.stockId)
    (hfresh : ∀ oi ∈ db.orderItems, oi.orderId ≠ db.nextId)
    (hsub : ∀ ci ∈ db.cartItems.filter (fun ci => ci.cartId == cartID),
        ci.subtotal = (ci.quantity : Money) * ci.unitPrice) :
    (ConvertCartToOrder now cartID db).error = none ∧
    ∃ ord, (ConvertCartToOrder now cartID db).db.2 = some ord ∧
      ((ConvertCartToOrder now cartID db).db.1.orderItems.filter
          (fun oi => oi.orderId == ord.id)).map
        (fun oi => (oi.productId, oi.priceId, oi.stockId, oi.quantity, oi.unitPrice,
          oi.subtotal)) =
      (db.cartItems.filter (fun ci => ci.cartId == cartID)).map
        (fun ci => (ci.productId, ci.priceId, ci.stockId, ci.quantity, ci.unitPrice,
          ci.subtotal)) ∧
      ∀ oi ∈ (ConvertCartToOrder now cartID db).db.1.orderItems.filter
          (fun oi => oi.orderId == ord.id),
        oi.subtotal = (oi.quantity : Money) * oi.unitPrice := by
  obtain ⟨c1, r1, m1, hloop⟩ := convertLoop_ok now db.nextId
    (db.cartItems.filter (fun ci => ci.cartId == cartID))
    ({ db with orders := db.orders ++ [⟨db.nextId, cart.customerId, some cartID,
        OrderStatus.pending, cart.currency, cart.subtotal, cart.tax, cart.discount,
        cart.total, "", [], now, now⟩], nextId := db.nextId + 1 })
    [] [] [] hstocks
  obtain ⟨assigned, nid, haddOI, hmap⟩ := addOrderItems_ok
    ((db.cartItems.filter (fun ci => ci.cartId == cartID)).map
      (fun item : CartItem => (⟨0, db.nextId, item.productId, item.priceId, item.stockId,
        item.quantity, item.unitPrice, item.subtotal⟩ : OrderItem)))
    ({ ({ db with orders := db.orders ++ [(⟨db.nextId, cart.customerId, some cartID,
        OrderStatus.pending, cart.currency, cart.subtotal, cart.tax, cart.discount,
        cart.total, "", [], now, now⟩ : Order)], nextId := db.nextId + 1 } : DB) with
      stockCache := c1 })
  have hbody : convertCartToOrderBody now cartID db =
      ({ stocks := (reduceStock now r1 db.stocks).1
         stockMovements := (createStockMovements now m1 db.stockMovements).1
         carts := db.carts.map (fun c => if c.id == cartID then
           { c with status := CartStatus.converted, updatedAt := now } else c)
         cartItems := db.cartItems
         orders := db.orders ++ [⟨db.nextId, cart.customerId, some cartID,
           OrderStatus.pending, cart.currency, cart.subtotal, cart.tax, cart.discount,
           cart.total, "", [], now, now⟩]
         orderItems := db.orderItems ++ assigned
         stockCache := c1
         nextId := nid },
       some ⟨db.nextId, cart.customerId, some cartID, OrderStatus.pending, cart.currency,
         cart.subtotal, cart.tax, cart.discount, cart.total, "", [], now, now⟩,
       none) := by
    simp only [convertCartToOrderBody, hcart]
    rw [if_neg (by simp [hactive])]
    rw [if_neg hne]
    simp only [List.nil_append] at hloop
    rw [hloop]
    simp only []
    rw [haddOI]
    rfl
  have hordid : ∀ oi ∈ assigned, oi.orderId = db.nextId := by
    have hP : ∀ oi ∈ (db.cartItems.filter (fun ci => ci.cartId == cartID)).map
        (fun item : CartItem => (⟨0, db.nextId, item.productId, item.priceId,
          item.stockId, item.quantity, item.unitPrice, item.subtotal⟩ : OrderItem)),
        oi.orderId = db.nextId := by
      intro oi hoi
      obtain ⟨ci, _, rfl⟩ := List.mem_map.mp hoi
      rfl
    intro oi hoi
    exact forall_mem_of_map_eq hmap (fun x => x.orderId = db.nextId)
      (fun b hb => hP b hb) oi hoi
  have hfilterOld : db.orderItems.filter
      (fun oi => oi.orderId == db.nextId) = [] :=
    List.filter_eq_nil_iff.mpr (fun oi hoi => by
      simp [beq_eq_false_iff_ne.mpr (hfresh oi hoi)])
  have hfilterNew : assigned.filter (fun oi => oi.orderId == db.nextId) = assigned :=
    List.filter_eq_self.mpr (fun oi hoi => beq_iff_eq.mpr (hordid oi hoi))
  have hres : ConvertCartToOrder now cartID db =
      ⟨((convertCartToOrderBody now cartID db).1,
        (convertCartToOrderBody now cartID db).2.1),
       (convertCartToOrderBody now cartID db).2.2, true⟩ := rfl
  rw [hres, hbody]
  refine ⟨rfl, ⟨db.nextId, cart.customerId, some cartID, OrderStatus.pending,
    cart.currency, cart.subtotal, cart.tax, cart.discount, cart.total, "", [], now,
    now⟩, rfl, ?_, ?_⟩
  · show ((db.orderItems ++ assigned).filter (fun oi => oi.orderId == db.nextId)).map _ = _
    rw [List.filter_append, hfilterOld, hfilterNew, List.nil_append]
    have h1 : ((fun oi : OrderItem => (oi.productId, oi.priceId, oi.stockId, oi.quantity,
        oi.unitPrice, oi.subtotal)) ∘ (fun oi : OrderItem => { oi with id := 0 })) =
        (fun oi : OrderItem => (oi.productId, oi.priceId, oi.stockId, oi.quantity,
          oi.unitPrice, oi.subtotal)) := funext fun oi => rfl
    calc assigned.map (fun oi => (oi.productId, oi.priceId, oi.stockId, oi.quantity,
          oi.unitPrice, oi.subtotal))
        = (assigned.map (fun oi => { oi with id := 0 })).map
            (fun oi => (oi.productId, oi.priceId, oi.stockId, oi.quantity, oi.unitPrice,
              oi.subtotal)) := by rw [List.map_map, h1]
      _ = (((db.cartItems.filter (fun ci => ci.cartId == cartID)).map
            (fun item : CartItem => (⟨0, db.nextId, item.productId, item.priceId,
              item.stockId, item.quantity, item.unitPrice, item.subtotal⟩ :
              OrderItem))).map (fun oi => { oi with id := 0 })).map
            (fun oi => (oi.productId, oi.priceId, oi.stockId, oi.quantity, oi.unitPrice,
              oi.subtotal)) := by rw [hmap]
      _ = (db.cartItems.filter (fun ci => ci.cartId == cartID)).map
            (fun ci => (ci.productId, ci.priceId, ci.stockId, ci.quantity, ci.unitPrice,
              ci.subtotal)) := by
        rw [List.map_map, List.map_map]
        rfl
  · show ∀ oi ∈ (db.orderItems ++ assigned).filter (fun oi => oi.orderId == db.nextId), _
    rw [List.filter_append, hfilterOld, hfilterNew, List.nil_append]
    have hP : ∀ oi ∈ (db.cartItems.filter (fun ci => ci.cartId == cartID)).map
        (fun item : CartItem => (⟨0, db.nextId, item.productId, item.priceId,
          item.stockId, item.quantity, item.unitPrice, item.subtotal⟩ : OrderItem)),
        oi.subtotal = (oi.quantity : Money) * oi.unitPrice := by
      intro oi hoi
      obtain ⟨ci, hci, rfl⟩ := List.mem_map.mp hoi
      exact hsub ci hci
    exact forall_mem_of_map_eq hmap
      (fun x => x.subtotal = (x.quantity : Money) * x.unitPrice) (fun b hb => hP b hb)

/-- Witness for C9: converting the one-item cart 1 reproduces its item. -/
theorem convertCartToOrder_round_trip_witness :
    (c9Db.carts.find? (fun c => c.id == 1) = some c9Cart) ∧
    (∀ ci ∈ c9Db.cartItems.filter (fun ci => ci.cartId == 1),
      ci.subtotal = (ci.quantity : Money) * ci.unitPrice) ∧
    ((ConvertCartToOrder 2 1 c9Db).error = none ∧
     ∃ ord, (ConvertCartToOrder 2 1 c9Db).db.2 = some ord ∧
       ((ConvertCartToOrder 2 1 c9Db).db.1.orderItems.filter
           (fun oi => oi.orderId == ord.id)).map
         (fun oi => (oi.productId, oi.priceId, oi.stockId, oi.quantity, oi.unitPrice,
           oi.subtotal)) =
       (c9Db.cartItems.filter (fun ci => ci.cartId == 1)).map
         (fun ci => (ci.productId, ci.priceId, ci.stockId, ci.quantity, ci.unitPrice,
           ci.subtotal)) ∧
       ∀ oi ∈ (ConvertCartToOrder 2 1 c9Db).db.1.orderItems.filter
           (fun oi => oi.orderId == ord.id),
         oi.subtotal = (oi.quantity : Money) * oi.unitPrice) := by
  have hmem : c9Db.cartItems.filter (fun ci => ci.cartId == 1) = [c9Item] := by decide
  have hsub9 : ∀ ci ∈ c9Db.cartItems.filter (fun ci => ci.cartId == 1),
      ci.subtotal = (ci.quantity : Money) * ci.unitPrice := by
    rw [hmem]
    intro ci hci
    obtain rfl := List.mem_singleton.mp hci
    norm_num [c9Item]
  refine ⟨by decide, hsub9, ?_⟩
  have h := convertCartToOrder_round_trip 2 1 c9Db c9Cart (by decide) (by decide)
    (by decide) (by decide) (by decide) hsub9
  exact h

/-! ## Claim C10 -/

/-- Claim C10: manual `CreateOrder` does not preserve the invariant
`0 ≤ reservedQuantity ≤ quantity`.  Its availability check compares only the
on-hand quantity with the requested quantity (`stockModel.Quantity <
item.Quantity`, ignoring `reservedQuantity`), and `ReduceStock` then
subtracts the quantity from both columns: for a stock row with
`reservedQuantity = 0` and sufficient on-hand quantity, the call succeeds and
leaves the row's `reservedQuantity` negative.  (`Order.Validate`, required to
pass, itself forces every item quantity positive; positivity is taken as the
hypothesis `hqpos`.) -/
theorem createOrder_negative_reservation (now : Time) (db : DB) (ord : Order)
    (item : OrderItem) (s : Stock)
    (hitems : ord.items = [item])
    (hval : ord.Validate = none)
    (hqpos : 0 < item.quantity)
    (hcache : db.stockCache.lookup item.stockId = none)
    (hfind : db.stocks.find? (fun t => t.id == item.stockId) = some s)
    (hres : s.reservedQuantity = 0)
    (hq : (item.quantity : Int) ≤ s.quantity) :
    (CreateOrder now ord db).error = none ∧
    (CreateOrder now ord db).db.stocks.find? (fun t => t.id == item.stockId) =
      some { s with quantity := s.quantity - (item.quantity : Int),
                    reservedQuantity := -(item.quantity : Int), updatedAt := now } ∧
    -(item.quantity : Int) < 0 := by
  have hqid : s.id = item.stockId := by
    have := List.find?_some hfind
    simpa using this
  refine ⟨?_, ?_, by omega⟩
  · show (createOrderBody now ord db).2 = none
    simp only [createOrderBody, hval, hitems, createOrderLoop, DB.getStockS, getStock,
      hcache, hfind]
    rw [if_neg (not_lt.mpr hq)]
    rfl
  · show ((createOrderBody now ord db).1.stocks.find? (fun t => t.id == item.stockId)) =
      some { s with quantity := s.quantity - (item.quantity : Int),
                    reservedQuantity := -(item.quantity : Int), updatedAt := now }
    have hpipeline : (createOrderBody now ord db).1.stocks =
        db.stocks.map (reduceStockRow now
          ⟨item.stockId, (item.quantity : Int), s.updatedAt⟩) := by
      simp only [createOrderBody, hval, hitems, createOrderLoop, DB.getStockS, getStock,
        hcache, hfind]
      rw [if_neg (not_lt.mpr hq)]
      rfl
    rw [hpipeline, List.find?_map]
    have hcomp : ((fun t : Stock => t.id == item.stockId) ∘
        (reduceStockRow now ⟨item.stockId, (item.quantity : Int), s.updatedAt⟩)) =
        (fun t : Stock => t.id == item.stockId) := by
      funext t
      simp [Function.comp, reduceStockRow_id]
    rw [hcomp, hfind, Option.map_some']
    unfold reduceStockRow
    rw [if_pos ⟨hqid, rfl⟩]
    rw [hres]
    simp

/-- Witness for C10: ordering 3 units of product A against a stock row with
10 on hand and 0 reserved drives the row's reservedQuantity to -3. -/
theorem createOrder_negative_reservation_witness :
    (c10Order.items = [c10Item]) ∧
    (c10Order.Validate = none) ∧
    (0 < c10Item.quantity) ∧
    (c10Db.stockCache.lookup c10Item.stockId = none) ∧
    (c10Db.stocks.find? (fun t => t.id == c10Item.stockId) = some c10Stock) ∧
    (c10Stock.reservedQuantity = 0) ∧
    ((c10Item.quantity : Int) ≤ c10Stock.quantity) ∧
    ((CreateOrder 3 c10Order c10Db).error = none ∧
      (CreateOrder 3 c10Order c10Db).db.stocks.find? (fun t => t.id == c10Item.stockId) =
        some { c10Stock with quantity := c10Stock.quantity - (c10Item.quantity : Int),
                             reservedQuantity := -(c10Item.quantity : Int),
                             updatedAt := 3 } ∧
      -(c10Item.quantity : Int) < 0) := by
  have hval : c10Order.Validate = none := by
    norm_num [c10Order, c10Item, Order.Validate, OrderItem.Validate, List.findSome?]
    decide
  refine ⟨rfl, hval, by decide, by decide, by decide, by decide, by decide, ?_⟩
  exact createOrder_negative_reservation 3 c10Db c10Order c10Item c10Stock rfl hval
    (by decide) (by decide) (by decide) (by decide) (by decide)

end Shop
